import Mathlib

/-!
Verification of the guardian inter-service RPC layer: a shallow embedding of
`src/common/src/mq/nats-service.ts` (class `NatsService`) and of the JWT
service-token validator (`JwtValidator`, `src/unnamed/part_001`), together
with models of the external collaborators they use (the `jsonwebtoken`
library, the secret store, and the NATS client's publish options).
-/

namespace Guardian

/-- A JavaScript-like value. The RPC layer treats payload bodies as opaque,
so a small universe of atoms is enough to model them. -/
inductive JSValue
  | vnull
  | vbool (b : Bool)
  | vnat (n : Nat)
  | vstr (s : String)
deriving Repr, DecidableEq

/-- JS truthiness of an optional string (`undefined` and the empty string are
falsy, every other string is truthy). -/
def jsStrTruthy : Option String → Bool
  | none => false
  | some s => s ≠ ""

/-- JS falsiness of an optional string, used for checks like
`!sec?.SERVICE_JWT_SECRET_KEY`. -/
def jsStrFalsy (s : Option String) : Bool := !jsStrTruthy s

/-! ## Secret store collaborator

`getSecrets(path)` returns a mapping of fields; an absent field (or an absent
mapping altogether) is modelled by `none`. -/

/-- The two secret fields the validator reads. -/
structure Secrets where
  SERVICE_JWT_SECRET_KEY : Option String := none
  SERVICE_JWT_PUBLIC_KEY : Option String := none
deriving Repr, DecidableEq

/-- A secret store: `getSecrets` is total, with absent fields as `none`. -/
def SecretStore := String → Secrets

/-! ## Model of the `jsonwebtoken` collaborator

A token is represented by its decoded content: the claims it carries, the
private key it was signed with, and whether its expiry check fails at
verification time.  `jwt.decode` reads the claims without verification;
`jwt.verify` checks the signature against a supplied public key.  The
asymmetric key pairing is abstracted by a function `pubOf` mapping each
private key to its public counterpart: verification with public key `p`
succeeds exactly when `p = pubOf k` for the signing key `k` and the token is
not expired. -/

/-- The claims of a token; the validator only ever reads `sub`. -/
structure JwtClaims where
  sub : Option String := none
deriving Repr, DecidableEq

/-- A (structurally well-formed) JWT. -/
structure JwtToken where
  claims : JwtClaims
  signedWith : String
  expired : Bool := false
deriving Repr, DecidableEq

/-- Model of `jwt.decode`: returns the claims without verifying anything. -/
def jwtDecode (t : JwtToken) : JwtClaims := t.claims

/-- Model of `jwt.verify token publicKey`: succeeds with the claims iff the
public key matches the signing key and the token is not expired; otherwise
throws. -/
def jwtVerify (pubOf : String → String) (t : JwtToken) (publicKey : String) :
    Except String JwtClaims :=
  if publicKey = pubOf t.signedWith ∧ t.expired = false then .ok t.claims
  else .error "jwt: verification failed"

/-! ## JwtValidator (src/unnamed/part_001)

`sign` and `verify` take the secret manager as `Option SecretStore` (`null`
models the degraded auth-disabled mode).  A supplied token is
`Option JwtToken`: `none` stands for an empty/absent token string.  The
process-wide private-key cache (`JwtValidator.privateKey`) is passed and
returned explicitly. -/

namespace JwtValidator

/-- `loadPrivateKey`: returns the cached key if one is set, otherwise fetches
`secretkey/jwt-service/<svc>` from the store, failing when the field is
absent or empty; returns the key together with the updated cache. -/
def loadPrivateKey (cache : Option String) (mgr : SecretStore) (svc : String) :
    Except String (String × Option String) :=
  if jsStrFalsy cache then
    let sec := mgr ("secretkey/jwt-service/" ++ svc)
    if jsStrFalsy sec.SERVICE_JWT_SECRET_KEY then
      .error ("JWTValidator: no privateKey at secretkey/jwt-service/" ++ svc)
    else
      .ok (sec.SERVICE_JWT_SECRET_KEY.getD "", sec.SERVICE_JWT_SECRET_KEY)
  else
    .ok (cache.getD "", cache)

/-- `JwtValidator.sign(mgr)`: with no secret manager returns the empty token
(`none`); otherwise loads the private key and signs the single claim
`sub = SERVICE_CHANNEL`.  Returns the token and the updated key cache. -/
def sign (cache : Option String) (mgr : Option SecretStore) (svc : String) :
    Except String (Option JwtToken × Option String) :=
  match mgr with
  | none => .ok (none, cache)
  | some store =>
    match loadPrivateKey cache store svc with
    | .error e => .error e
    | .ok (key, cache') =>
      .ok (some { claims := { sub := some svc }, signedWith := key }, cache')

/-- `JwtValidator.verify(token, mgr)`: trivially succeeds with the empty
identity when no secret manager or no token is supplied; otherwise reads the
claimed signer from the unverified token, fetches that signer's public key,
verifies signature and expiry with it (any cryptographic failure, including
the post-verification sub-mismatch recheck, is collapsed by the surrounding
try/catch into the generic "invalid or expired token" error), and returns
the signer identity. -/
def verify (pubOf : String → String) (token : Option JwtToken)
    (mgr : Option SecretStore) : Except String String :=
  match mgr with
  | none => .ok ""
  | some store =>
    match token with
    | none => .ok ""
    | some t =>
      match (jwtDecode t).sub with
      | none => .error "JWTValidator: missing sub claim"
      | some signer =>
        if signer = "" then .error "JWTValidator: missing sub claim"
        else
          let sec := store ("publickey/jwt-service/" ++ signer)
          if jsStrFalsy sec.SERVICE_JWT_PUBLIC_KEY then
            .error ("JWTValidator: no publicKey at publickey/jwt-service/" ++ signer)
          else
            match jwtVerify pubOf t (sec.SERVICE_JWT_PUBLIC_KEY.getD "") with
            | .error _ => .error "JWTValidator: invalid or expired token"
            | .ok payload =>
              if payload.sub = some signer then .ok signer
              else .error "JWTValidator: invalid or expired token"

end JwtValidator

/-! ## The pending-callback map (`responseCallbacksMap : Map<string, CallbackFunction>`)

The `Map` is embedded as an association list whose operations mirror the JS
`Map` semantics: `set` replaces in place or appends, `delete` removes the
entry, `get` looks up.  The callback closures stored in the map are
represented by which operation created them (`sendMessage` closures reject
with a `MessageError`, `sendRawMessage` closures reject with the raw error
string); `runCallback` gives their behaviour. -/

/-- Which send-style operation created a stored callback closure. -/
inductive CallbackKind
  | sendMessageCB
  | sendRawMessageCB
deriving Repr, DecidableEq

/-- The `responseCallbacksMap`. -/
abbrev CbMap := List (String × CallbackKind)

/-- `Map.get`: value at the key, if present. -/
def mapGet (m : CbMap) (k : String) : Option CallbackKind :=
  match m with
  | [] => none
  | (k', v) :: t => if k' = k then some v else mapGet t k

/-- `Map.set`: replaces the value in place when the key is present, appends
otherwise. -/
def mapSet (m : CbMap) (k : String) (v : CallbackKind) : CbMap :=
  if (mapGet m k).isSome then
    m.map (fun p => if p.1 = k then (k, v) else p)
  else
    m ++ [(k, v)]

/-- `Map.delete`: removes the entry for `k` (a no-op when absent). -/
def mapDelete (m : CbMap) (k : String) : CbMap := m.filter (fun p => p.1 ≠ k)

/-- Well-formedness of the map model: keys are pairwise distinct (a JS `Map`
holds at most one value per key by construction). -/
def mapWF (m : CbMap) : Prop := (m.map Prod.fst).Nodup

instance (m : CbMap) : Decidable (mapWF m) := by
  unfold mapWF; infer_instance

/-- Number of entries a key has in the map model. -/
def mapCount (m : CbMap) (k : String) : Nat := m.countP (fun p => p.1 = k)

/-- How a promise observed by a caller settles. A `sendMessage` closure
rejects with `new MessageError(error, code)` when the error argument is
truthy and resolves with the body otherwise; a `sendRawMessage` closure
rejects with the raw error value. -/
inductive PromiseSettle
  | resolved (v : Option JSValue)
  | rejectedMessageError (msg : Option String) (code : Option Nat)
  | rejectedPlain (e : Option String)
deriving Repr, DecidableEq

/-- Behaviour of a stored callback on arguments `(body, error, code)`. -/
def runCallback : CallbackKind → Option JSValue → Option String → Option Nat → PromiseSettle
  | .sendMessageCB, body, error, code =>
    if jsStrTruthy error then .rejectedMessageError error code else .resolved body
  | .sendRawMessageCB, body, error, _ =>
    if jsStrTruthy error then .rejectedPlain error else .resolved body

/-! ## Wire model: headers, publish options, envelopes

Spec §6's transport contract is `publish(subject, bytes, \x7bheaders, replyTo?\x7d)`:
the NATS client recognises the `reply` and `headers` fields of the options
object; any other field is not part of the wire protocol, so the headers a
receiver sees are exactly the `headers` field of the options.  Encoded
payload bytes are represented by the value they decode to. -/

/-- A header value: an ordinary string, or a service token travelling in a
header (with `none` for the empty token of auth-disabled mode). -/
inductive HeaderValue
  | str (s : String)
  | token (t : Option JwtToken)
deriving Repr, DecidableEq

/-- Ordered string-keyed headers, in append order. -/
abbrev Headers := List (String × HeaderValue)

/-- `headers.get(k)`. -/
def headersGet (h : Headers) (k : String) : Option HeaderValue := List.lookup k h

/-- The options object passed to `connection.publish`: the fields the NATS
client recognises (`reply`, `headers`) plus any unrecognised extra fields
set on it. -/
structure PublishOptions where
  reply : Option String := none
  headers : Headers := []
  extra : Headers := []
deriving Repr

/-- One call to `connection.publish`: subject, encoded payload, options. -/
structure PubEnvelope where
  subject : String
  data : JSValue
  opts : PublishOptions
deriving Repr

/-- The headers the transport attaches to the delivered message: exactly the
`headers` field of the publish options (unrecognised option fields such as a
top-level `serviceToken` are dropped by the client). -/
def PubEnvelope.wireHeaders (e : PubEnvelope) : Headers := e.opts.headers

/-! ## NatsService state -/

/-- The state of a `NatsService` instance, together with the process-level
environment it reads (`SERVICE_CHANNEL`, the `JwtValidator.privateKey`
cache). -/
structure NatsService where
  replySubject : String
  messageQueueName : String
  availableEvents : Option (List String) := none
  secretManager : Option SecretStore := none
  responseCallbacksMap : CbMap := []
  privateKeyCache : Option String := none
  serviceChannel : String

namespace NatsService

/-- `publish(subject, data, replySubject?)`: signs, encodes, and publishes.
The computed token is set as a top-level `serviceToken` field on the options
object (not inside `headers`, which are never set); `reply` is set when the
optional reply subject is truthy.  Returns the updated service state and the
envelope passed to `connection.publish`.  `encodeResult` is the outcome of
the codec's `encode(data)` call. -/
def publish (st : NatsService) (subject : String)
    (encodeResult : Except String JSValue) (replyTo : Option String) :
    Except String (NatsService × PubEnvelope) :=
  match JwtValidator.sign st.privateKeyCache st.secretManager st.serviceChannel with
  | .error e => .error e
  | .ok (token, cache') =>
    match encodeResult with
    | .error e => .error e
    | .ok wire =>
      .ok ({ st with privateKeyCache := cache' },
        { subject := subject, data := wire,
          opts := { reply := if jsStrTruthy replyTo then replyTo else none,
                    headers := [],
                    extra := [("serviceToken", .token token)] } })

/-- The `subscribe(subject, cb)` allow-list guard: throws when an allow-list
is configured and the subject is not in it. -/
def subscribeGuard (st : NatsService) (subject : String) : Except String Unit :=
  match st.availableEvents with
  | some evs =>
    if subject ∈ evs then .ok ()
    else .error ("NATS ACL: subscription to \"" ++ subject ++ "\" not allowed")
  | none => .ok ()

/-- The state of the promise returned by a send-style operation once its
`new Promise(async ...)` executor has run to completion or thrown. A throw
inside the async executor does not reject the outer promise: if neither
continuation was called before the throw, the promise is stranded (it never
settles). -/
inductive SendPromise
  | awaitingReply
  | resolvedNull
  | stranded (e : String)
deriving Repr, DecidableEq

/-- Result of running a send-style operation's executor. -/
structure SendResult where
  service : NatsService
  published : Option PubEnvelope
  promise : SendPromise

/-- `sendMessage(subject, data, isResponseCallback, externalMessageId)`:
registers a callback for the message id (or resolves the promise with null
immediately when `isResponseCallback` is false), then awaits the token, the
encoded payload, and the publish; a failure in any of these throws inside
the async executor, leaving the registered entry in the map and the outer
promise unsettled.  `encodeResult` and `publishResult` are the outcomes of
the codec's `encode` and of `connection.publish`. -/
def sendMessage (st : NatsService) (subject : String)
    (encodeResult : Except String JSValue) (publishResult : Except String Unit)
    (isResponseCallback : Bool) (messageId : String) : SendResult :=
  let st₁ :=
    if isResponseCallback then
      { st with responseCallbacksMap :=
          mapSet st.responseCallbacksMap messageId .sendMessageCB }
    else st
  let onThrow : String → SendPromise := fun e =>
    if isResponseCallback then .stranded e else .resolvedNull
  match JwtValidator.sign st₁.privateKeyCache st₁.secretManager st₁.serviceChannel with
  | .error e => { service := st₁, published := none, promise := onThrow e }
  | .ok (token, cache') =>
    let st₂ := { st₁ with privateKeyCache := cache' }
    match encodeResult with
    | .error e => { service := st₂, published := none, promise := onThrow e }
    | .ok wire =>
      let envl : PubEnvelope :=
        { subject := subject, data := wire,
          opts := { reply := some st.replySubject,
                    headers := [("messageId", .str messageId),
                                ("serviceToken", .token token)] } }
      match publishResult with
      | .error e => { service := st₂, published := none, promise := onThrow e }
      | .ok _ =>
        { service := st₂, published := some envl,
          promise := if isResponseCallback then .awaitingReply else .resolvedNull }

/-- `sendRawMessage(subject, data)`: like `sendMessage` with a mandatory
callback registration, but the stored closure rejects with the raw error
value. -/
def sendRawMessage (st : NatsService) (subject : String)
    (encodeResult : Except String JSValue) (publishResult : Except String Unit)
    (messageId : String) : SendResult :=
  let st₁ := { st with responseCallbacksMap :=
                 mapSet st.responseCallbacksMap messageId .sendRawMessageCB }
  match JwtValidator.sign st₁.privateKeyCache st₁.secretManager st₁.serviceChannel with
  | .error e => { service := st₁, published := none, promise := .stranded e }
  | .ok (token, cache') =>
    let st₂ := { st₁ with privateKeyCache := cache' }
    match encodeResult with
    | .error e => { service := st₂, published := none, promise := .stranded e }
    | .ok wire =>
      let envl : PubEnvelope :=
        { subject := subject, data := wire,
          opts := { reply := some st.replySubject,
                    headers := [("messageId", .str messageId),
                                ("serviceToken", .token token)] } }
      match publishResult with
      | .error e => { service := st₂, published := none, promise := .stranded e }
      | .ok _ => { service := st₂, published := some envl, promise := .awaitingReply }

end NatsService

/-! ## The reply listener installed by `init`

`init` subscribes to the instance's own `replySubject`; the subscription
callback reads the `messageId` and `serviceToken` headers, looks up the
pending callback, and — only when one exists — decodes the payload and
settles the entry.  A message whose decoded payload is falsy settles the
callback with `null` directly; otherwise the sender token is verified, a
verification failure being turned into a `(null, message, 401)` settlement.
In every settling branch the entry is then deleted. -/

/-- The decoded payload of a message arriving on the reply subject, as the
listener discriminates it: either a falsy value, or an `IMessageResponse`
with its `body`, `error` and `code` fields. -/
inductive ReplyData
  | falsy
  | response (body : Option JSValue) (error : Option String) (code : Option Nat)
deriving Repr, DecidableEq

/-- A message delivered on the reply subject: the two headers the listener
reads, and the payload (represented by what it decodes to). -/
structure ReplyMsg where
  messageId : String
  serviceToken : Option JwtToken
  data : ReplyData
deriving Repr, DecidableEq

/-- A call of a stored callback: which entry was settled and with which
`(body, error, code)` arguments. -/
structure Settlement where
  messageId : String
  cb : CallbackKind
  body : Option JSValue
  error : Option String
  code : Option Nat
deriving Repr, DecidableEq

namespace NatsService

/-- One execution of the reply-subject subscription callback from `init` on
a delivered message: returns the updated service state and the settlement
performed, if any.  An unknown message id is ignored without any effect. -/
def replyListenerStep (pubOf : String → String) (st : NatsService)
    (msg : ReplyMsg) : NatsService × Option Settlement :=
  match mapGet st.responseCallbacksMap msg.messageId with
  | none => (st, none)
  | some cb =>
    let stl : Settlement :=
      match msg.data with
      | .falsy =>
        { messageId := msg.messageId, cb := cb,
          body := some .vnull, error := none, code := none }
      | .response b e c =>
        match JwtValidator.verify pubOf msg.serviceToken st.secretManager with
        | .ok _ =>
          { messageId := msg.messageId, cb := cb, body := b, error := e, code := c }
        | .error err =>
          { messageId := msg.messageId, cb := cb,
            body := some .vnull, error := some err, code := some 401 }
    ({ st with responseCallbacksMap :=
         mapDelete st.responseCallbacksMap msg.messageId },
     some stl)

/-- The listener loop over a sequence of delivered messages: each message is
processed by `replyListenerStep`, and processing always continues with the
next message. -/
def processReplies (pubOf : String → String) (st : NatsService) :
    List ReplyMsg → NatsService × List Settlement
  | [] => (st, [])
  | m :: ms =>
    let r := replyListenerStep pubOf st m
    let rest := processReplies pubOf r.1 ms
    (rest.1, r.2.toList ++ rest.2)

end NatsService

/-! ## `sendMessageWithTimeout`: racing the reply against a timer

`sendMessageWithTimeout` starts `sendMessage` with a fresh message id, arms
a timer whose callback deletes the pending entry and rejects the timeout
promise with an error naming the subject, and returns
`Promise.race([messagePromise, timeoutPromise])`.  The race is settled by
whichever of the two settles first; a later settlement of the loser does not
change it. -/

/-- The outcome of the raced promise returned by `sendMessageWithTimeout`. -/
inductive RaceResult
  | resolved (v : Option JSValue)
  | rejectedMessageError (msg : Option String) (code : Option Nat)
  | rejectedPlain (e : Option String)
  | rejectedTimeout (msg : String)
deriving Repr, DecidableEq

/-- Embeds a settlement of the message promise into the race outcome. -/
def RaceResult.ofSettle : PromiseSettle → RaceResult
  | .resolved v => .resolved v
  | .rejectedMessageError m c => .rejectedMessageError m c
  | .rejectedPlain e => .rejectedPlain e

/-- The dynamic state of one in-flight `sendMessageWithTimeout` call: the
service state and the race (`none` while neither promise has settled). -/
structure TimedCall where
  service : NatsService
  race : Option RaceResult

namespace NatsService

/-- The timer callback of `sendMessageWithTimeout`'s timeout promise firing:
deletes the pending entry for the call's message id, and rejects the race
with `Timeout exceed (subject)` when the race is still unsettled (rejecting
an already-settled race is a no-op). -/
def timeoutFire (messageId subject : String) (tc : TimedCall) : TimedCall :=
  let st := tc.service
  let st' : NatsService :=
    { st with responseCallbacksMap :=
        mapDelete st.responseCallbacksMap messageId }
  { service := st',
    race := some ((tc.race).getD
      (.rejectedTimeout ("Timeout exceed (" ++ subject ++ ")"))) }

/-- A reply-subject delivery observed by an in-flight
`sendMessageWithTimeout` call with message id `messageId`: the listener
processes the message; if that settles the call's own entry and the race is
still unsettled, the race settles with the callback's outcome (a settlement
of an already-settled race is a no-op). -/
def timedDeliver (pubOf : String → String) (messageId : String)
    (msg : ReplyMsg) (tc : TimedCall) : TimedCall :=
  let r := replyListenerStep pubOf tc.service msg
  let race' :=
    match tc.race, r.2 with
    | none, some stl =>
      if stl.messageId = messageId then
        some (RaceResult.ofSettle (runCallback stl.cb stl.body stl.error stl.code))
      else none
    | r, _ => r
  { service := r.1, race := race' }

end NatsService

/-! ## `getMessages`: inbound handler registration -/

/-- A message delivered to a `getMessages` subscription: the two headers the
callback reads (each possibly absent) and the decoded payload. -/
structure InboundMsg where
  messageId : Option String
  serviceToken : Option JwtToken
  data : JSValue
deriving Repr, DecidableEq

/-- The error-body object literal responded on an access-control rejection. -/
structure ErrorBody where
  body : Option JSValue
  error : Option String
  code : Option Nat
  name : Option String
  message : Option String
deriving Repr, DecidableEq

/-- The body `getMessages` responds with when the subject is not in the
allow-list and the registration expects responses. -/
def forbiddenBody : ErrorBody :=
  { body := some .vnull, error := some "Forbidden", code := some 403,
    name := some "Forbidden", message := some "Forbidden" }

/-- What a `getMessages` callback responds with, when it responds. -/
inductive RespBody
  | forbidden (b : ErrorBody)
  | value (v : JSValue)
deriving Repr, DecidableEq

/-- The observable outcome of the `try` block of one `getMessages` callback
run: whether the registered handler was invoked, and the `msg.respond` call
made, if any (body together with the reply headers). -/
structure GetOutcome where
  handlerInvoked : Bool
  response : Option (RespBody × Headers)
deriving Repr, DecidableEq

/-- The outcome of one full `getMessages` callback run: either the `try`
block completed, or it threw and the `catch` logged the error (the
subscription keeps running either way). -/
inductive GetStep
  | completed (o : GetOutcome)
  | caught (e : String)
deriving Repr, DecidableEq

namespace NatsService

/-- The `try` block of the `getMessages(subject, cb, noRespond)` callback on
one delivered message: builds the reply headers from the inbound
`messageId`; when an allow-list is configured and the subject is not in it,
responds with the forbidden error body (reply-expecting registration) or
throws a `ForbiddenException` (no-respond registration) without invoking the
handler; otherwise verifies the sender token (a failure throws) and invokes
the handler, responding with its encoded result unless `noRespond`.
`handlerResult` is the outcome of `cb(decode(msg.data), msg.headers)`. -/
def getMessagesBody (pubOf : String → String) (st : NatsService)
    (subject : String) (noRespond : Bool) (msg : InboundMsg)
    (handlerResult : Except String JSValue) : Except String GetOutcome :=
  let head : Headers :=
    if jsStrTruthy msg.messageId then
      [("messageId", .str (msg.messageId.getD ""))]
    else []
  let aclDenied : Bool :=
    match st.availableEvents with
    | some evs => decide (subject ∉ evs)
    | none => false
  if aclDenied then
    if !noRespond then
      .ok { handlerInvoked := false, response := some (.forbidden forbiddenBody, head) }
    else
      .error "Forbidden"
  else
    match JwtValidator.verify pubOf msg.serviceToken st.secretManager with
    | .error e => .error e
    | .ok _ =>
      match handlerResult with
      | .error e => .error e
      | .ok v =>
        if !noRespond then
          .ok { handlerInvoked := true, response := some (.value v, head) }
        else
          .ok { handlerInvoked := true, response := none }

/-- One full `getMessages` callback run: the `try` block wrapped in the
`catch` that logs any thrown error and lets the subscription continue. -/
def getMessagesStep (pubOf : String → String) (st : NatsService)
    (subject : String) (noRespond : Bool) (msg : InboundMsg)
    (handlerResult : Except String JSValue) : GetStep :=
  match getMessagesBody pubOf st subject noRespond msg handlerResult with
  | .ok o => .completed o
  | .error e => .caught e

/-- `sendMessageWithTimeout(subject, timeout, data)`: runs `sendMessage`
with a fresh message id and a response callback, and pairs it with the
initial (unsettled) race of the message promise against the timeout
promise. -/
def sendMessageWithTimeout (st : NatsService) (subject : String)
    (encodeResult : Except String JSValue) (publishResult : Except String Unit)
    (messageId : String) : SendResult × TimedCall :=
  let r := sendMessage st subject encodeResult publishResult true messageId
  (r, { service := r.service, race := none })

end NatsService

/-! ## Concrete fixtures used by witnesses and counterexamples -/

/-- A concrete key pairing: the public key of a private key `k` is `k ++ "P"`. -/
def pubOfW : String → String := fun s => s ++ "P"

/-- A concrete secret store holding the key pair of service `A` (private key
`KA`, public key `KAP`) and the public key `KBP` of service `B`. -/
def storeW : SecretStore := fun path =>
  if path = "secretkey/jwt-service/A" then
    { SERVICE_JWT_SECRET_KEY := some "KA" }
  else if path = "publickey/jwt-service/A" then
    { SERVICE_JWT_PUBLIC_KEY := some "KAP" }
  else if path = "publickey/jwt-service/B" then
    { SERVICE_JWT_PUBLIC_KEY := some "KBP" }
  else
    { }

/-- A secret store with no keys at all. -/
def storeEmptyW : SecretStore := fun _ => { }

/-- A token signed by service `A` (with `A`'s private key) over the claim
`sub = "A"`. -/
def tokenA : JwtToken := { claims := { sub := some "A" }, signedWith := "KA" }

/-- A token signed with `A`'s private key but claiming `sub = "B"`: it names
`B`'s key namespace while `B`'s public key does not validate its signature. -/
def tokenAB : JwtToken := { claims := { sub := some "B" }, signedWith := "KA" }

/-- A concrete service instance with two pending entries. -/
def svcW : NatsService :=
  { replySubject := "reply-w", messageQueueName := "q", serviceChannel := "A",
    secretManager := some storeW,
    responseCallbacksMap := [("m1", .sendMessageCB), ("m2", .sendRawMessageCB)] }

/-- A concrete service instance with an empty pending table, no allow-list,
and `A`'s keys available. -/
def svcPub : NatsService :=
  { replySubject := "reply-w", messageQueueName := "q", serviceChannel := "A",
    secretManager := some storeW }

/-- A concrete service instance whose allow-list admits only
`svc.allowed`. -/
def svcAcl : NatsService :=
  { replySubject := "reply-w", messageQueueName := "q", serviceChannel := "A",
    secretManager := some storeW, availableEvents := some ["svc.allowed"] }

/-- A concrete service instance whose secret store has no signing key, so
`sign` fails. -/
def svc6 : NatsService :=
  { replySubject := "reply-w", messageQueueName := "q", serviceChannel := "A",
    secretManager := some storeEmptyW }

/-- A reply for pending id `m1` whose payload decodes to a falsy value. -/
def msgW : ReplyMsg := { messageId := "m1", serviceToken := some tokenA, data := .falsy }

/-- A reply for pending id `m1` carrying a token that fails verification. -/
def msg7W : ReplyMsg :=
  { messageId := "m1", serviceToken := some tokenAB,
    data := .response (some (.vstr "x")) none none }

/-- An inbound `getMessages` message with a message id and a valid token. -/
def msgIn : InboundMsg :=
  { messageId := some "m5", serviceToken := some tokenA, data := .vstr "d" }

/-- An in-flight `sendMessageWithTimeout` call over `svcW`, still
unsettled. -/
def tcW : TimedCall := { service := svcW, race := none }

/-! ## Helper lemmas about the map model -/

theorem mapGet_mapDelete_self (m : CbMap) (k : String) :
    mapGet (mapDelete m k) k = none := by
  induction m with
  | nil => rfl
  | cons p t ih =>
    by_cases h : p.1 = k
    · simpa [mapDelete, List.filter_cons, h] using ih
    · obtain ⟨k', v⟩ := p
      simp only [] at h
      simpa [mapDelete, List.filter_cons, h, mapGet] using ih

theorem mapGet_mapDelete_ne (m : CbMap) (k k' : String) (h : k' ≠ k) :
    mapGet (mapDelete m k) k' = mapGet m k' := by
  induction m with
  | nil => rfl
  | cons p t ih =>
    obtain ⟨a, v⟩ := p
    by_cases ha : a = k
    · have ha' : a ≠ k' := by
        rw [ha]; exact fun hh => h hh.symm
      simpa [mapDelete, List.filter_cons, ha, mapGet, ha', Ne.symm h] using ih
    · by_cases hak : a = k'
      · simp [mapDelete, List.filter_cons, ha, mapGet, hak, h]
      · simpa [mapDelete, List.filter_cons, ha, mapGet, hak, h] using ih

theorem mapGet_eq_none_iff (m : CbMap) (k : String) :
    mapGet m k = none ↔ k ∉ m.map Prod.fst := by
  induction m with
  | nil => simp [mapGet]
  | cons p t ih =>
    obtain ⟨a, v⟩ := p
    by_cases h : a = k
    · simp [mapGet, h]
    · simp [mapGet, h, ih, Ne.symm h]

theorem mapWF_mapDelete (m : CbMap) (k : String) (hwf : mapWF m) :
    mapWF (mapDelete m k) := by
  unfold mapWF mapDelete at *
  exact ((List.filter_sublist m).map Prod.fst).nodup hwf

theorem mapWF_mapSet (m : CbMap) (k : String) (v : CallbackKind) (hwf : mapWF m) :
    mapWF (mapSet m k v) := by
  unfold mapWF mapSet at *
  by_cases h : (mapGet m k).isSome
  · have hkeys : (m.map (fun p => if p.1 = k then (k, v) else p)).map Prod.fst
        = m.map Prod.fst := by
      rw [List.map_map]
      apply List.map_congr_left
      intro p _
      by_cases hp : p.1 = k
      · simp [hp]
      · simp [hp]
    simpa [h, hkeys] using hwf
  · have hk : k ∉ m.map Prod.fst := by
      rw [← mapGet_eq_none_iff]
      exact Option.not_isSome_iff_eq_none.mp h
    simp [h, List.nodup_append, hwf, hk]

theorem mapCount_le_one (m : CbMap) (k : String) (hwf : mapWF m) :
    mapCount m k ≤ 1 := by
  induction m with
  | nil => simp [mapCount]
  | cons p t ih =>
    unfold mapWF at hwf
    rw [List.map_cons, List.nodup_cons] at hwf
    have hwf' : mapWF t := hwf.2
    by_cases h : p.1 = k
    · have hk : k ∉ t.map Prod.fst := by
        rw [← h]; exact hwf.1
      have hz : mapCount t k = 0 := by
        unfold mapCount
        rw [List.countP_eq_zero]
        intro q hq
        simp only [decide_eq_true_eq]
        intro hq1
        exact hk (hq1 ▸ List.mem_map_of_mem Prod.fst hq)
      unfold mapCount at hz ⊢
      rw [List.countP_cons]
      simp [h, hz]
    · have := ih hwf'
      simpa [mapCount, List.countP_cons, h] using this

/-- Every error `JwtValidator.verify` can throw has a truthy (non-empty)
message. -/
theorem verify_error_truthy (pubOf : String → String) (token : Option JwtToken)
    (mgr : Option SecretStore) (e : String)
    (h : JwtValidator.verify pubOf token mgr = .error e) :
    jsStrTruthy (some e) = true := by
  unfold JwtValidator.verify at h
  cases mgr with
  | none => simp at h
  | some store =>
    cases token with
    | none => simp at h
    | some t =>
      cases hsub : (jwtDecode t).sub with
      | none =>
        simp [hsub] at h
        simp [jsStrTruthy, ← h]
      | some signer =>
        simp only [hsub] at h
        by_cases hs : signer = ""
        · simp [hs] at h
          simp [jsStrTruthy, ← h]
        · simp only [hs, if_false] at h
          by_cases hp : jsStrFalsy (store ("publickey/jwt-service/" ++ signer)).SERVICE_JWT_PUBLIC_KEY = true
          · simp only [hp, if_true] at h
            have he : ("JWTValidator: no publicKey at publickey/jwt-service/" ++ signer) = e := by
              simpa using h
            rw [← he]
            have hne : ("JWTValidator: no publicKey at publickey/jwt-service/" ++ signer) ≠ "" := by
              intro hemp
              have hlen := congrArg String.length hemp
              rw [String.length_append] at hlen
              have h52 : "JWTValidator: no publicKey at publickey/jwt-service/".length = 52 := rfl
              rw [h52] at hlen
              simp at hlen
            simpa [jsStrTruthy] using hne
          · simp only [eq_self_iff_true] at hp
            rw [if_neg hp] at h
            cases hv : jwtVerify pubOf t ((store ("publickey/jwt-service/" ++ signer)).SERVICE_JWT_PUBLIC_KEY.getD "") with
            | error e' =>
              simp [hv] at h
              simp [jsStrTruthy, ← h]
            | ok payload =>
              simp only [hv] at h
              by_cases hm : payload.sub = some signer
              · simp [hm] at h
              · simp [hm] at h
                simp [jsStrTruthy, ← h]

/-- Inversion for the jwt collaborator model: a successful `jwt.verify`
returns the token's own claims, and the supplied public key matched the
signing key of an unexpired token. -/
theorem jwtVerify_ok (pubOf : String → String) (t : JwtToken) (pk : String)
    (c : JwtClaims) (h : jwtVerify pubOf t pk = .ok c) :
    c = t.claims ∧ pk = pubOf t.signedWith ∧ t.expired = false := by
  unfold jwtVerify at h
  split at h
  · next hcond =>
    have hc : t.claims = c := by
      simpa using h
    exact ⟨hc.symm, hcond.1, hcond.2⟩
  · simp at h

/-! ## Claim theorems -/

/-- C1: whenever `JwtValidator.verify` accepts a token (with a configured
secret store), the identity it returns is exactly the token's `sub` claim —
the same string under whose namespace the public key was fetched — and that
fetched key validated the signature; conversely, a token whose `sub` claim
names `B` while the key fetched under `B`'s namespace does not validate the
token fails verification, so a token cannot authenticate as a signer other
than the one whose public key validated it. -/
theorem verify_identity_binds_sub_claim (pubOf : String → String)
    (store : SecretStore) (t : JwtToken) :
    (∀ i, JwtValidator.verify pubOf (some t) (some store) = .ok i →
      (jwtDecode t).sub = some i ∧
      jwtVerify pubOf t
        (((store ("publickey/jwt-service/" ++ i)).SERVICE_JWT_PUBLIC_KEY).getD "")
        = .ok t.claims) ∧
    (∀ b, (jwtDecode t).sub = some b →
      (∀ c, jwtVerify pubOf t
          (((store ("publickey/jwt-service/" ++ b)).SERVICE_JWT_PUBLIC_KEY).getD "")
          ≠ .ok c) →
      ∃ e, JwtValidator.verify pubOf (some t) (some store) = .error e) := by
  constructor
  · intro i hi
    simp only [JwtValidator.verify] at hi
    cases hsub : (jwtDecode t).sub with
    | none => rw [hsub] at hi; simp at hi
    | some signer =>
      simp only [hsub] at hi
      by_cases hs : signer = ""
      · simp [hs] at hi
      · rw [if_neg hs] at hi
        by_cases hp : jsStrFalsy (store ("publickey/jwt-service/" ++ signer)).SERVICE_JWT_PUBLIC_KEY = true
        · simp [hp] at hi
        · rw [if_neg hp] at hi
          cases hv : jwtVerify pubOf t
              (((store ("publickey/jwt-service/" ++ signer)).SERVICE_JWT_PUBLIC_KEY).getD "") with
          | error e => simp [hv] at hi
          | ok payload =>
            simp only [hv] at hi
            by_cases hm : payload.sub = some signer
            · rw [if_pos hm] at hi
              have hsi : signer = i := by simpa using hi
              subst hsi
              refine ⟨rfl, ?_⟩
              rw [hv, (jwtVerify_ok pubOf t _ payload hv).1]
            · rw [if_neg hm] at hi
              simp at hi
  · intro b hb hveri
    simp only [JwtValidator.verify, hb]
    by_cases hs : b = ""
    · rw [if_pos hs]
      exact ⟨_, rfl⟩
    · rw [if_neg hs]
      by_cases hp : jsStrFalsy (store ("publickey/jwt-service/" ++ b)).SERVICE_JWT_PUBLIC_KEY = true
      · rw [if_pos hp]
        exact ⟨_, rfl⟩
      · rw [if_neg hp]
        cases hv : jwtVerify pubOf t
            (((store ("publickey/jwt-service/" ++ b)).SERVICE_JWT_PUBLIC_KEY).getD "") with
        | error e => exact ⟨_, rfl⟩
        | ok c => exact absurd hv (hveri c)

/-- Witness for C1: `tokenA` verifies under `A`'s key with identity bound to
its `sub` claim, and `tokenAB` — signed with `A`'s key but claiming `B` — is
rejected. -/
theorem verify_identity_binds_sub_claim_witness :
    ((jwtDecode tokenA).sub = some "A" ∧
      jwtVerify pubOfW tokenA
        (((storeW ("publickey/jwt-service/" ++ "A")).SERVICE_JWT_PUBLIC_KEY).getD "")
        = .ok tokenA.claims) ∧
    (∃ e, JwtValidator.verify pubOfW (some tokenAB) (some storeW) = .error e) := by
  have hv : jwtVerify pubOfW tokenAB
      (((storeW ("publickey/jwt-service/" ++ "B")).SERVICE_JWT_PUBLIC_KEY).getD "")
      = .error "jwt: verification failed" := by rfl
  exact ⟨(verify_identity_binds_sub_claim pubOfW storeW tokenA).1 "A" rfl,
         (verify_identity_binds_sub_claim pubOfW storeW tokenAB).2 "B" rfl
           (fun c hc => Except.noConfusion (hv ▸ hc))⟩

/-- C5: token round-trip — a token produced by `sign` for service `A` is
accepted by `verify` against `A`'s own published public key with identity
`A`; and any token whose claimed signer's published public key does not
validate it (wrong key or expired) fails with the single generic
`invalid or expired token` error, regardless of which cryptographic check
failed. -/
theorem sign_verify_round_trip (pubOf : String → String) (store : SecretStore)
    (A priv : String) (hA : A ≠ "")
    (hpriv : (store ("secretkey/jwt-service/" ++ A)).SERVICE_JWT_SECRET_KEY = some priv)
    (hprivne : priv ≠ "")
    (hpub : (store ("publickey/jwt-service/" ++ A)).SERVICE_JWT_PUBLIC_KEY = some (pubOf priv))
    (hpubne : pubOf priv ≠ "") :
    (∃ tok cache,
        JwtValidator.sign none (some store) A = .ok (some tok, cache) ∧
        JwtValidator.verify pubOf (some tok) (some store) = .ok A) ∧
    (∀ (t : JwtToken) (signer : String), (jwtDecode t).sub = some signer → signer ≠ "" →
      ∀ pk, (store ("publickey/jwt-service/" ++ signer)).SERVICE_JWT_PUBLIC_KEY = some pk →
        pk ≠ "" →
        (pk ≠ pubOf t.signedWith ∨ t.expired = true) →
        JwtValidator.verify pubOf (some t) (some store)
          = .error "JWTValidator: invalid or expired token") := by
  constructor
  · refine ⟨{ claims := { sub := some A }, signedWith := priv }, some priv, ?_, ?_⟩
    · unfold JwtValidator.sign JwtValidator.loadPrivateKey
      simp [jsStrFalsy, jsStrTruthy, hpriv, hprivne]
    · unfold JwtValidator.verify
      simp [jwtDecode, hA, hpub, jsStrFalsy, jsStrTruthy, hpubne, jwtVerify]
  · intro t signer hsub hsne pk hpk hpkne hbad
    have hv : jwtVerify pubOf t pk = .error "jwt: verification failed" := by
      unfold jwtVerify
      rcases hbad with hb | hb
      · rw [if_neg (fun hc => hb hc.1)]
      · rw [if_neg (fun hc => by rw [hb] at hc; exact absurd hc.2 (by simp))]
    unfold JwtValidator.verify
    simp [hsub, hsne, hpk, jsStrFalsy, jsStrTruthy, hpkne, hv]

/-- Witness for C5: the round trip at service `A` with key pair
`(KA, KAP)`, and the generic rejection of `tokenAB` under `B`'s key. -/
theorem sign_verify_round_trip_witness :
    (∃ tok cache,
        JwtValidator.sign none (some storeW) "A" = .ok (some tok, cache) ∧
        JwtValidator.verify pubOfW (some tok) (some storeW) = .ok "A") ∧
    JwtValidator.verify pubOfW (some tokenAB) (some storeW)
      = .error "JWTValidator: invalid or expired token" := by
  have h := sign_verify_round_trip pubOfW storeW "A" "KA" (by decide) rfl (by decide)
    rfl (by decide)
  exact ⟨h.1, h.2 tokenAB "B" rfl (by decide) "KBP" rfl (by decide)
    (Or.inl (by decide))⟩

/-- The reply listener ignores a message whose id has no pending entry. -/
theorem replyListenerStep_of_none (pubOf : String → String) (s : NatsService)
    (m : ReplyMsg) (h : mapGet s.responseCallbacksMap m.messageId = none) :
    NatsService.replyListenerStep pubOf s m = (s, none) := by
  simp [NatsService.replyListenerStep, h]

/-- When an entry exists, the reply listener deletes it from the map. -/
theorem replyListenerStep_of_some (pubOf : String → String) (s : NatsService)
    (m : ReplyMsg) (cb : CallbackKind)
    (h : mapGet s.responseCallbacksMap m.messageId = some cb) :
    (NatsService.replyListenerStep pubOf s m).1.responseCallbacksMap
      = mapDelete s.responseCallbacksMap m.messageId := by
  simp only [NatsService.replyListenerStep, h]

/-- C4: settlement of a pending request is at-most-once.  A well-formed
pending table has at most one entry per message id; the reply listener
preserves well-formedness; a reply whose id has no entry is silently ignored
(no state change, no continuation invoked); and when an entry exists, one
settlement is performed, the entry is removed, re-delivering the same reply
afterwards is a no-op, and entries for unrelated ids are untouched. -/
theorem reply_settlement_at_most_once (pubOf : String → String)
    (st : NatsService) (msg : ReplyMsg)
    (hwf : mapWF st.responseCallbacksMap) :
    (∀ id, mapCount st.responseCallbacksMap id ≤ 1) ∧
    mapWF (NatsService.replyListenerStep pubOf st msg).1.responseCallbacksMap ∧
    (mapGet st.responseCallbacksMap msg.messageId = none →
      NatsService.replyListenerStep pubOf st msg = (st, none)) ∧
    (∀ cb, mapGet st.responseCallbacksMap msg.messageId = some cb →
      (∃ stl, (NatsService.replyListenerStep pubOf st msg).2 = some stl ∧
        stl.messageId = msg.messageId) ∧
      mapGet (NatsService.replyListenerStep pubOf st msg).1.responseCallbacksMap
        msg.messageId = none ∧
      NatsService.replyListenerStep pubOf (NatsService.replyListenerStep pubOf st msg).1 msg
        = ((NatsService.replyListenerStep pubOf st msg).1, none) ∧
      (∀ id', id' ≠ msg.messageId →
        mapGet (NatsService.replyListenerStep pubOf st msg).1.responseCallbacksMap id'
          = mapGet st.responseCallbacksMap id')) := by
  cases h : mapGet st.responseCallbacksMap msg.messageId with
  | none =>
    have hstep := replyListenerStep_of_none pubOf st msg h
    refine ⟨fun id => mapCount_le_one _ id hwf, ?_, fun _ => hstep, ?_⟩
    · rw [hstep]; exact hwf
    · intro cb hcb; simp at hcb
  | some cb0 =>
    have hmap := replyListenerStep_of_some pubOf st msg cb0 h
    have hnone : mapGet
        (NatsService.replyListenerStep pubOf st msg).1.responseCallbacksMap
        msg.messageId = none := by
      rw [hmap]
      exact mapGet_mapDelete_self _ _
    refine ⟨fun id => mapCount_le_one _ id hwf, ?_, ?_, ?_⟩
    · rw [hmap]
      exact mapWF_mapDelete _ _ hwf
    · intro hn; simp at hn
    · intro cb hcb
      obtain rfl : cb0 = cb := by injection hcb
      refine ⟨?_, hnone, replyListenerStep_of_none pubOf _ msg hnone, ?_⟩
      · cases hd : msg.data with
        | falsy =>
          exact ⟨{ messageId := msg.messageId, cb := cb0, body := some .vnull,
                   error := none, code := none },
                 by simp only [NatsService.replyListenerStep, h, hd], rfl⟩
        | response b e c =>
          cases hv : JwtValidator.verify pubOf msg.serviceToken st.secretManager with
          | ok x =>
            exact ⟨{ messageId := msg.messageId, cb := cb0, body := b,
                     error := e, code := c },
                   by simp only [NatsService.replyListenerStep, h, hd, hv], rfl⟩
          | error err =>
            exact ⟨{ messageId := msg.messageId, cb := cb0, body := some .vnull,
                     error := some err, code := some 401 },
                   by simp only [NatsService.replyListenerStep, h, hd, hv], rfl⟩
      · intro id' hne
        rw [hmap]
        exact mapGet_mapDelete_ne _ _ _ hne

/-- Witness for C4: settling pending id `m1` removes it, leaves `m2` alone,
and a second delivery of the same reply is ignored. -/
theorem reply_settlement_at_most_once_witness :
    mapGet (NatsService.replyListenerStep pubOfW svcW msgW).1.responseCallbacksMap
      "m1" = none ∧
    NatsService.replyListenerStep pubOfW (NatsService.replyListenerStep pubOfW svcW msgW).1 msgW
      = ((NatsService.replyListenerStep pubOfW svcW msgW).1, none) ∧
    mapGet (NatsService.replyListenerStep pubOfW svcW msgW).1.responseCallbacksMap "m2"
      = mapGet svcW.responseCallbacksMap "m2" := by
  have h := (reply_settlement_at_most_once pubOfW svcW msgW (by decide)).2.2.2
    .sendMessageCB rfl
  exact ⟨h.2.1, h.2.2.1, h.2.2.2 "m2" (by decide)⟩

/-- C7: an inbound reply whose service-token verification fails, while a
pending entry exists for its id, settles the waiting caller with
`(null, message, 401)` — for a `sendMessage` caller a rejection carrying
code 401 — removes the entry, and the listener loop goes on to process the
remaining messages. -/
theorem reply_auth_failure_rejects_401 (pubOf : String → String)
    (st : NatsService) (msg : ReplyMsg) (b : Option JSValue)
    (e0 : Option String) (c0 : Option Nat) (cb : CallbackKind) (err : String)
    (hcb : mapGet st.responseCallbacksMap msg.messageId = some cb)
    (hdata : msg.data = .response b e0 c0)
    (hauth : JwtValidator.verify pubOf msg.serviceToken st.secretManager = .error err) :
    (NatsService.replyListenerStep pubOf st msg).2
      = some { messageId := msg.messageId, cb := cb,
               body := some .vnull, error := some err, code := some 401 } ∧
    runCallback cb (some .vnull) (some err) (some 401)
      = (if cb = .sendMessageCB then
           PromiseSettle.rejectedMessageError (some err) (some 401)
         else .rejectedPlain (some err)) ∧
    mapGet (NatsService.replyListenerStep pubOf st msg).1.responseCallbacksMap
      msg.messageId = none ∧
    (∀ rest, NatsService.processReplies pubOf st (msg :: rest)
      = ((NatsService.processReplies pubOf
            (NatsService.replyListenerStep pubOf st msg).1 rest).1,
         { messageId := msg.messageId, cb := cb, body := some .vnull,
           error := some err, code := some 401 }
           :: (NatsService.processReplies pubOf
                 (NatsService.replyListenerStep pubOf st msg).1 rest).2)) := by
  have htr : jsStrTruthy (some err) = true :=
    verify_error_truthy pubOf msg.serviceToken st.secretManager err hauth
  have hstep2 : (NatsService.replyListenerStep pubOf st msg).2
      = some { messageId := msg.messageId, cb := cb,
               body := some .vnull, error := some err, code := some 401 } := by
    simp only [NatsService.replyListenerStep, hcb, hdata, hauth]
  refine ⟨hstep2, ?_, ?_, ?_⟩
  · cases cb with
    | sendMessageCB => simp [runCallback, htr]
    | sendRawMessageCB => simp [runCallback, htr]
  · rw [replyListenerStep_of_some pubOf st msg cb hcb]
    exact mapGet_mapDelete_self _ _
  · intro rest
    simp only [NatsService.processReplies, hstep2, Option.toList_some,
      List.singleton_append]

/-- Witness for C7: a reply for pending `m1` carrying `tokenAB` (which fails
verification) settles the caller with a 401 rejection and evicts the
entry. -/
theorem reply_auth_failure_rejects_401_witness :
    (NatsService.replyListenerStep pubOfW svcW msg7W).2
      = some { messageId := "m1", cb := .sendMessageCB, body := some .vnull,
               error := some "JWTValidator: invalid or expired token",
               code := some 401 } ∧
    runCallback .sendMessageCB (some .vnull)
        (some "JWTValidator: invalid or expired token") (some 401)
      = .rejectedMessageError (some "JWTValidator: invalid or expired token") (some 401) ∧
    mapGet (NatsService.replyListenerStep pubOfW svcW msg7W).1.responseCallbacksMap
      "m1" = none := by
  have h := reply_auth_failure_rejects_401 pubOfW svcW msg7W (some (.vstr "x"))
    none none .sendMessageCB "JWTValidator: invalid or expired token" rfl rfl rfl
  exact ⟨h.1, by simpa using h.2.1, h.2.2.1⟩

/-- C10: a reply carrying a registered id whose payload decodes to a falsy
value settles the pending callback with `null` — resolving the waiting
caller with `null` — and removes the entry, all without performing any token
verification: the outcome is independent of the message's token, of the
configured secret manager, and of the key pairing. -/
theorem reply_falsy_payload_resolves_null_without_verification
    (pubOf : String → String) (st : NatsService) (msg : ReplyMsg)
    (cb : CallbackKind)
    (hcb : mapGet st.responseCallbacksMap msg.messageId = some cb)
    (hdata : msg.data = .falsy) :
    (NatsService.replyListenerStep pubOf st msg).2
      = some { messageId := msg.messageId, cb := cb,
               body := some .vnull, error := none, code := none } ∧
    runCallback cb (some .vnull) none none = .resolved (some .vnull) ∧
    mapGet (NatsService.replyListenerStep pubOf st msg).1.responseCallbacksMap
      msg.messageId = none ∧
    (∀ (pubOf' : String → String) (mgr' : Option SecretStore) (tok' : Option JwtToken),
      (NatsService.replyListenerStep pubOf' { st with secretManager := mgr' }
          { msg with serviceToken := tok' }).2
        = (NatsService.replyListenerStep pubOf st msg).2 ∧
      (NatsService.replyListenerStep pubOf' { st with secretManager := mgr' }
          { msg with serviceToken := tok' }).1.responseCallbacksMap
        = (NatsService.replyListenerStep pubOf st msg).1.responseCallbacksMap) := by
  have hstep2 : (NatsService.replyListenerStep pubOf st msg).2
      = some { messageId := msg.messageId, cb := cb,
               body := some .vnull, error := none, code := none } := by
    simp only [NatsService.replyListenerStep, hcb, hdata]
  refine ⟨hstep2, ?_, ?_, ?_⟩
  · cases cb with
    | sendMessageCB => simp [runCallback, jsStrTruthy]
    | sendRawMessageCB => simp [runCallback, jsStrTruthy]
  · rw [replyListenerStep_of_some pubOf st msg cb hcb]
    exact mapGet_mapDelete_self _ _
  · intro pubOf' mgr' tok'
    have hcb' : mapGet ({ st with secretManager := mgr' }).responseCallbacksMap
        ({ msg with serviceToken := tok' }).messageId = some cb := hcb
    have hdata' : ({ msg with serviceToken := tok' }).data = .falsy := hdata
    constructor
    · rw [hstep2]
      simp only [NatsService.replyListenerStep, hcb', hdata', hdata]
    · rw [replyListenerStep_of_some pubOf' _ _ cb hcb',
        replyListenerStep_of_some pubOf st msg cb hcb]

/-- Witness for C10: a falsy-decoding reply for pending `m1` resolves the
caller with `null` and removes the entry, with the same outcome under a
different (even failing) token. -/
theorem reply_falsy_payload_resolves_null_without_verification_witness :
    (NatsService.replyListenerStep pubOfW svcW msgW).2
      = some { messageId := "m1", cb := .sendMessageCB, body := some .vnull,
               error := none, code := none } ∧
    runCallback .sendMessageCB (some .vnull) none none = .resolved (some .vnull) ∧
    (NatsService.replyListenerStep pubOfW { svcW with secretManager := none }
        { msgW with serviceToken := some tokenAB }).2
      = (NatsService.replyListenerStep pubOfW svcW msgW).2 := by
  have h := reply_falsy_payload_resolves_null_without_verification pubOfW svcW msgW
    .sendMessageCB rfl rfl
  exact ⟨h.1, h.2.1, (h.2.2.2 pubOfW none (some tokenAB)).1⟩

/-! ## Further map lemmas -/

theorem mapGet_map_replace (m : CbMap) (k : String) (v : CallbackKind)
    (h : (mapGet m k).isSome) :
    mapGet (m.map (fun p => if p.1 = k then (k, v) else p)) k = some v := by
  induction m with
  | nil => simp [mapGet] at h
  | cons p t ih =>
    obtain ⟨a, w⟩ := p
    by_cases ha : a = k
    · show mapGet ((if a = k then (k, v) else (a, w))
          :: t.map (fun p => if p.1 = k then (k, v) else p)) k = some v
      rw [if_pos ha]
      show (if k = k then some v
          else mapGet (t.map (fun p => if p.1 = k then (k, v) else p)) k) = some v
      rw [if_pos rfl]
    · show mapGet ((if a = k then (k, v) else (a, w))
          :: t.map (fun p => if p.1 = k then (k, v) else p)) k = some v
      rw [if_neg ha]
      show (if a = k then some w
          else mapGet (t.map (fun p => if p.1 = k then (k, v) else p)) k) = some v
      rw [if_neg ha]
      apply ih
      have hcons : mapGet ((a, w) :: t) k = mapGet t k := by
        show (if a = k then some w else mapGet t k) = mapGet t k
        rw [if_neg ha]
      rwa [hcons] at h

theorem mapGet_append_last (m : CbMap) (k : String) (v : CallbackKind)
    (h : mapGet m k = none) :
    mapGet (m ++ [(k, v)]) k = some v := by
  induction m with
  | nil => simp [mapGet]
  | cons p t ih =>
    obtain ⟨a, w⟩ := p
    by_cases ha : a = k
    · simp [mapGet, ha] at h
    · simp only [mapGet, ha, if_false] at h
      simpa [mapGet, List.cons_append, ha] using ih h

theorem mapGet_mapSet_self (m : CbMap) (k : String) (v : CallbackKind) :
    mapGet (mapSet m k v) k = some v := by
  unfold mapSet
  by_cases h : (mapGet m k).isSome
  · rw [if_pos h]
    exact mapGet_map_replace m k v h
  · rw [if_neg h]
    exact mapGet_append_last m k v (Option.not_isSome_iff_eq_none.mp h)

theorem mapDelete_eq_self (m : CbMap) (k : String) (h : mapGet m k = none) :
    mapDelete m k = m := by
  have hni := (mapGet_eq_none_iff m k).mp h
  unfold mapDelete
  apply List.filter_eq_self.mpr
  intro p hp
  simp only [decide_eq_true_eq]
  intro hpk
  exact hni (hpk ▸ List.mem_map_of_mem Prod.fst hp)

/-- When an entry exists for the reply's id, the listener performs exactly
one settlement, carrying that id. -/
theorem replyListenerStep_settles (pubOf : String → String) (s : NatsService)
    (m : ReplyMsg) (cb : CallbackKind)
    (h : mapGet s.responseCallbacksMap m.messageId = some cb) :
    ∃ stl, (NatsService.replyListenerStep pubOf s m).2 = some stl ∧
      stl.messageId = m.messageId ∧ stl.cb = cb := by
  cases hd : m.data with
  | falsy =>
    exact ⟨{ messageId := m.messageId, cb := cb, body := some .vnull,
             error := none, code := none },
           by simp only [NatsService.replyListenerStep, h, hd], rfl, rfl⟩
  | response b e c =>
    cases hv : JwtValidator.verify pubOf m.serviceToken s.secretManager with
    | ok x =>
      exact ⟨{ messageId := m.messageId, cb := cb, body := b, error := e, code := c },
             by simp only [NatsService.replyListenerStep, h, hd, hv], rfl, rfl⟩
    | error err =>
      exact ⟨{ messageId := m.messageId, cb := cb, body := some .vnull,
               error := some err, code := some 401 },
             by simp only [NatsService.replyListenerStep, h, hd, hv], rfl, rfl⟩

/-- `sendMessage` with a response callback always leaves the entry for its
message id registered in the map, whatever the outcomes of signing,
encoding, and publishing. -/
theorem sendMessage_registers (st : NatsService) (subject : String)
    (enc : Except String JSValue) (pub : Except String Unit) (mid : String) :
    (NatsService.sendMessage st subject enc pub true mid).service.responseCallbacksMap
      = mapSet st.responseCallbacksMap mid .sendMessageCB := by
  simp only [NatsService.sendMessage]
  split
  · rfl
  · split
    · rfl
    · split <;> rfl

/-! ## C2, C3, C6 -/

/-- C2 (code bug): `publish` computes the signed token but sets it as a
top-level `serviceToken` field of the options object instead of inside
`headers`; the NATS client recognises only `reply` and `headers`, so a
message sent by `publish` carries no `serviceToken` header and a receiver
reading `headers.get('serviceToken')` obtains nothing.  By contrast,
`sendMessage` and `sendRawMessage` do place the token in the `serviceToken`
header. -/
theorem publish_drops_serviceToken_header :
    (∃ st' envl,
        NatsService.publish svcPub "svc.x" (.ok (.vstr "d")) none = .ok (st', envl) ∧
        envl.opts.extra = [("serviceToken", .token (some tokenA))] ∧
        headersGet envl.wireHeaders "serviceToken" = none) ∧
    ((NatsService.sendMessage svcPub "svc.x" (.ok (.vstr "d")) (.ok ()) true "m9").published.map
        (fun e => headersGet e.wireHeaders "serviceToken")
      = some (some (.token (some tokenA)))) ∧
    ((NatsService.sendRawMessage svcPub "svc.x" (.ok (.vstr "d")) (.ok ()) "m9").published.map
        (fun e => headersGet e.wireHeaders "serviceToken")
      = some (some (.token (some tokenA)))) := by
  exact ⟨⟨_, _, rfl, rfl, rfl⟩, rfl, rfl⟩

/-- C3 counterexample: with the allow-list `[svc.allowed]` configured,
`publish` to the subject `svc.denied` does not fail with an access-control
error — it succeeds and hands the message to the transport. -/
theorem publish_no_acl_counterexample :
    ∃ st' envl,
      NatsService.publish svcAcl "svc.denied" (.ok (.vstr "d")) none = .ok (st', envl) ∧
      envl.subject = "svc.denied" :=
  ⟨_, _, rfl, rfl⟩

/-- C3 (amended): `publish` performs no outbound access-control check — its
observable outcome is identical under any allow-list configuration — and it
never creates a correlation entry; subject allow-list enforcement exists
instead on the subscription side (`subscribe` throws for a subject outside a
configured list). -/
theorem publish_ignores_allow_list (st : NatsService) (subject : String)
    (enc : Except String JSValue) (replyTo : Option String)
    (ae₁ ae₂ : Option (List String)) :
    ((NatsService.publish { st with availableEvents := ae₁ } subject enc replyTo).map
        (fun r => (r.1.responseCallbacksMap, r.1.privateKeyCache, r.2)))
      = ((NatsService.publish { st with availableEvents := ae₂ } subject enc replyTo).map
        (fun r => (r.1.responseCallbacksMap, r.1.privateKeyCache, r.2))) ∧
    (∀ st' envl, NatsService.publish st subject enc replyTo = .ok (st', envl) →
      st'.responseCallbacksMap = st.responseCallbacksMap) ∧
    (∀ evs, st.availableEvents = some evs → subject ∉ evs →
      NatsService.subscribeGuard st subject
        = .error ("NATS ACL: subscription to \"" ++ subject ++ "\" not allowed")) := by
  refine ⟨?_, ?_, ?_⟩
  · cases hs : JwtValidator.sign st.privateKeyCache st.secretManager st.serviceChannel with
    | error e => simp [NatsService.publish, hs]
    | ok p =>
      obtain ⟨tok, cache'⟩ := p
      cases enc with
      | error e => simp [NatsService.publish, hs]
      | ok w => simp [NatsService.publish, hs, Except.map]
  · intro st' envl h
    unfold NatsService.publish at h
    cases hs : JwtValidator.sign st.privateKeyCache st.secretManager st.serviceChannel with
    | error e => rw [hs] at h; cases h
    | ok p =>
      obtain ⟨tok, cache'⟩ := p
      rw [hs] at h
      cases enc with
      | error e => cases h
      | ok w =>
        injection h with hp
        have h1 : ({ st with privateKeyCache := cache' } : NatsService) = st' := by
          simpa using congrArg Prod.fst hp
        rw [← h1]
  · intro evs he hni
    simp [NatsService.subscribeGuard, he, hni]

/-- Witness for C3 (amended): over the allow-listed instance, `publish` to a
denied subject leaves the pending table unchanged, while `subscribe` to the
same subject throws the ACL error. -/
theorem publish_ignores_allow_list_witness :
    ({ svcAcl with privateKeyCache := some "KA" } : NatsService).responseCallbacksMap
      = svcAcl.responseCallbacksMap ∧
    NatsService.subscribeGuard svcAcl "svc.denied"
      = .error ("NATS ACL: subscription to \"" ++ "svc.denied" ++ "\" not allowed") := by
  have h := publish_ignores_allow_list svcAcl "svc.denied" (.ok (.vstr "d")) none none none
  exact ⟨h.2.1 _ _ rfl, h.2.2 ["svc.allowed"] rfl (by decide)⟩

/-- C6 (code bug): a failure of signing, encoding, or the transport publish
inside the `new Promise(async ...)` executor of `sendMessage` or
`sendRawMessage` does not reject the returned promise — the promise is
stranded, never settling — and the correlation entry registered for the
operation's message id is left behind in the pending table. -/
theorem send_failure_strands_entry :
    ((NatsService.sendMessage svc6 "svc.x" (.ok (.vstr "d")) (.ok ()) true "m1").promise
        = .stranded "JWTValidator: no privateKey at secretkey/jwt-service/A" ∧
      mapGet (NatsService.sendMessage svc6 "svc.x" (.ok (.vstr "d")) (.ok ())
          true "m1").service.responseCallbacksMap "m1" = some .sendMessageCB) ∧
    ((NatsService.sendRawMessage svc6 "svc.x" (.ok (.vstr "d")) (.ok ()) "m2").promise
        = .stranded "JWTValidator: no privateKey at secretkey/jwt-service/A" ∧
      mapGet (NatsService.sendRawMessage svc6 "svc.x" (.ok (.vstr "d"))
          (.ok ()) "m2").service.responseCallbacksMap "m2" = some .sendRawMessageCB) ∧
    ((NatsService.sendMessage svcPub "svc.x" (.error "zip encode failed") (.ok ()) true "m3").promise
        = .stranded "zip encode failed" ∧
      mapGet (NatsService.sendMessage svcPub "svc.x" (.error "zip encode failed") (.ok ())
          true "m3").service.responseCallbacksMap "m3" = some .sendMessageCB) ∧
    ((NatsService.sendMessage svcPub "svc.x" (.ok (.vstr "d")) (.error "publish failed") true "m4").promise
        = .stranded "publish failed" ∧
      mapGet (NatsService.sendMessage svcPub "svc.x" (.ok (.vstr "d")) (.error "publish failed")
          true "m4").service.responseCallbacksMap "m4" = some .sendMessageCB) := by
  exact ⟨⟨rfl, rfl⟩, ⟨rfl, rfl⟩, ⟨rfl, rfl⟩, ⟨rfl, rfl⟩⟩

/-! ## C8, C9 -/

/-- C8: in an in-flight `sendMessageWithTimeout` call (entry pending, race
unsettled): (a) the timer firing first evicts the pending entry and rejects
the raced promise with `Timeout exceed (subject)`; (b) a reply delivered
after the timer is a complete no-op; (c) if the reply arrives first, the
race settles with the reply's outcome and the timer firing afterwards is a
complete no-op; and the setup of `sendMessageWithTimeout` always yields that
configuration (race unsettled, entry registered for the fresh id). -/
theorem sendWithTimeout_race (pubOf : String → String) (tc : TimedCall)
    (mid subject : String) (msg : ReplyMsg)
    (hpend : tc.race = none)
    (hcb : mapGet tc.service.responseCallbacksMap mid = some .sendMessageCB)
    (hmsg : msg.messageId = mid) :
    ((NatsService.timeoutFire mid subject tc).race
        = some (.rejectedTimeout ("Timeout exceed (" ++ subject ++ ")")) ∧
      mapGet (NatsService.timeoutFire mid subject tc).service.responseCallbacksMap
        mid = none) ∧
    (NatsService.timedDeliver pubOf mid msg (NatsService.timeoutFire mid subject tc)
      = NatsService.timeoutFire mid subject tc) ∧
    (∃ o, (NatsService.timedDeliver pubOf mid msg tc).race = some o ∧
      NatsService.timeoutFire mid subject (NatsService.timedDeliver pubOf mid msg tc)
        = NatsService.timedDeliver pubOf mid msg tc) ∧
    (∀ (st0 : NatsService) (enc : Except String JSValue) (pub : Except String Unit),
      (NatsService.sendMessageWithTimeout st0 subject enc pub mid).2.race = none ∧
      mapGet ((NatsService.sendMessageWithTimeout st0 subject enc pub mid).2.service.responseCallbacksMap)
        mid = some .sendMessageCB) := by
  have hcb2 : mapGet tc.service.responseCallbacksMap msg.messageId
      = some .sendMessageCB := by
    rw [hmsg]; exact hcb
  have hTmap : (NatsService.timeoutFire mid subject tc).service.responseCallbacksMap
      = mapDelete tc.service.responseCallbacksMap mid := by
    simp only [NatsService.timeoutFire]
  have hTnone : mapGet
      (NatsService.timeoutFire mid subject tc).service.responseCallbacksMap
      msg.messageId = none := by
    rw [hmsg, hTmap]
    exact mapGet_mapDelete_self _ _
  refine ⟨⟨?_, ?_⟩, ?_, ?_, ?_⟩
  · simp [NatsService.timeoutFire, hpend]
  · rw [hmsg] at hTnone
    exact hTnone
  · have hstep := replyListenerStep_of_none pubOf
      (NatsService.timeoutFire mid subject tc).service msg hTnone
    have hTrace : (NatsService.timeoutFire mid subject tc).race
        = some ((tc.race).getD
            (.rejectedTimeout ("Timeout exceed (" ++ subject ++ ")"))) := by
      simp only [NatsService.timeoutFire]
    show NatsService.timedDeliver pubOf mid msg (NatsService.timeoutFire mid subject tc)
      = NatsService.timeoutFire mid subject tc
    simp only [NatsService.timedDeliver, hstep, hTrace]
    rfl
  · obtain ⟨stl, hstl, hstlid, hstlcb⟩ :=
      replyListenerStep_settles pubOf tc.service msg _ hcb2
    have hafterR : NatsService.timedDeliver pubOf mid msg tc
        = { service := (NatsService.replyListenerStep pubOf tc.service msg).1,
            race := some (RaceResult.ofSettle
              (runCallback stl.cb stl.body stl.error stl.code)) } := by
      simp only [NatsService.timedDeliver, hpend, hstl]
      rw [if_pos (hstlid.trans hmsg)]
    have hR1 : (NatsService.replyListenerStep pubOf tc.service msg).1.responseCallbacksMap
        = mapDelete tc.service.responseCallbacksMap msg.messageId :=
      replyListenerStep_of_some pubOf tc.service msg _ hcb2
    have hno : mapGet
        (NatsService.replyListenerStep pubOf tc.service msg).1.responseCallbacksMap
        mid = none := by
      rw [hR1, ← hmsg]
      exact mapGet_mapDelete_self _ _
    refine ⟨RaceResult.ofSettle (runCallback stl.cb stl.body stl.error stl.code),
      by rw [hafterR], ?_⟩
    rw [hafterR]
    simp only [NatsService.timeoutFire]
    rw [mapDelete_eq_self _ _ hno]
    rfl
  · intro st0 enc pub
    refine ⟨rfl, ?_⟩
    show mapGet ((NatsService.sendMessage st0 subject enc pub true mid).service.responseCallbacksMap)
      mid = some .sendMessageCB
    rw [sendMessage_registers]
    exact mapGet_mapSet_self _ _ _

/-- Witness for C8: over the in-flight call `tcW` for id `m1`, the timer
firing evicts the entry and rejects with a subject-identifying timeout
error, and a late reply afterwards is a no-op. -/
theorem sendWithTimeout_race_witness :
    (NatsService.timeoutFire "m1" "svc.x" tcW).race
      = some (.rejectedTimeout ("Timeout exceed (" ++ "svc.x" ++ ")")) ∧
    mapGet (NatsService.timeoutFire "m1" "svc.x" tcW).service.responseCallbacksMap
      "m1" = none ∧
    NatsService.timedDeliver pubOfW "m1" msgW (NatsService.timeoutFire "m1" "svc.x" tcW)
      = NatsService.timeoutFire "m1" "svc.x" tcW := by
  have h := sendWithTimeout_race pubOfW tcW "m1" "svc.x" msgW rfl rfl rfl
  exact ⟨h.1.1, h.1.2, h.2.1⟩

/-- C9: inbound access control in `getMessages`.  With no allow-list
configured every subject is admitted (the callback behaves exactly as if the
subject were allow-listed).  With an allow-list configured and a subject
outside it, a reply-expecting registration responds with the structured
forbidden error body (whose `body` is null, `error` is `Forbidden` and
`code` is 403) without invoking the handler, while a no-respond registration
instead throws an access-control error (caught by the callback's own catch,
so the subscription keeps running). -/
theorem getMessages_access_control (pubOf : String → String) (st : NatsService)
    (subject : String) (msg : InboundMsg) (handlerResult : Except String JSValue) :
    (st.availableEvents = none →
      ∀ noRespond, NatsService.getMessagesStep pubOf st subject noRespond msg handlerResult
        = NatsService.getMessagesStep pubOf { st with availableEvents := some [subject] }
            subject noRespond msg handlerResult) ∧
    (∀ evs, st.availableEvents = some evs → subject ∉ evs →
      (NatsService.getMessagesBody pubOf st subject false msg handlerResult
          = .ok { handlerInvoked := false,
                  response := some (.forbidden forbiddenBody,
                    if jsStrTruthy msg.messageId then
                      [("messageId", .str (msg.messageId.getD ""))]
                    else []) } ∧
        forbiddenBody.body = some .vnull ∧
        forbiddenBody.error = some "Forbidden" ∧
        forbiddenBody.code = some 403) ∧
      NatsService.getMessagesBody pubOf st subject true msg handlerResult
        = .error "Forbidden" ∧
      NatsService.getMessagesStep pubOf st subject true msg handlerResult
        = .caught "Forbidden") := by
  constructor
  · intro h noRespond
    simp [NatsService.getMessagesStep, NatsService.getMessagesBody, h]
  · intro evs he hni
    have hb1 : NatsService.getMessagesBody pubOf st subject false msg handlerResult
        = .ok { handlerInvoked := false,
                response := some (.forbidden forbiddenBody,
                  if jsStrTruthy msg.messageId then
                    [("messageId", .str (msg.messageId.getD ""))]
                  else []) } := by
      simp [NatsService.getMessagesBody, he, hni]
    have hb2 : NatsService.getMessagesBody pubOf st subject true msg handlerResult
        = .error "Forbidden" := by
      simp [NatsService.getMessagesBody, he, hni]
    refine ⟨⟨hb1, rfl, rfl, rfl⟩, hb2, ?_⟩
    simp [NatsService.getMessagesStep, hb2]

/-- Witness for C9: over the allow-listed instance, a message on the denied
subject gets the forbidden response (reply-expecting) or the thrown
`Forbidden` (no-respond), and the unrestricted instance admits any
subject. -/
theorem getMessages_access_control_witness :
    NatsService.getMessagesBody pubOfW svcAcl "svc.denied" false msgIn (.ok (.vstr "r"))
      = .ok { handlerInvoked := false,
              response := some (.forbidden forbiddenBody, [("messageId", .str "m5")]) } ∧
    NatsService.getMessagesBody pubOfW svcAcl "svc.denied" true msgIn (.ok (.vstr "r"))
      = .error "Forbidden" ∧
    NatsService.getMessagesStep pubOfW svcPub "svc.y" false msgIn (.ok (.vstr "r"))
      = NatsService.getMessagesStep pubOfW { svcPub with availableEvents := some ["svc.y"] }
          "svc.y" false msgIn (.ok (.vstr "r")) := by
  have h := getMessages_access_control pubOfW svcAcl "svc.denied" msgIn (.ok (.vstr "r"))
  have h2 := getMessages_access_control pubOfW svcPub "svc.y" msgIn (.ok (.vstr "r"))
  refine ⟨?_, (h.2 ["svc.allowed"] rfl (by decide)).2.1, h2.1 rfl false⟩
  have h1 := (h.2 ["svc.allowed"] rfl (by decide)).1.1
  simpa using h1

end Guardian
